import Mathlib

/-!
Shallow embedding of the student/grade HTTP service in src/index.js.

The service keeps its state in two PostgreSQL tables, etudiants and notes
(created by initDatabase, src/index.js lines 33-56).  We model the database
as explicit state: a list of student rows, a list of grade rows, the two
SERIAL counters and a logical clock standing for CURRENT_TIMESTAMP.  SQL
NUMERIC values are modelled as exact rationals and the timestamp columns as
naturals.  Each Express handler becomes a pure function from the request
body (optional fields model absent JSON keys) and the current state to a
result and the next state.
-/

attribute [local semireducible] Rat.mul Rat.add Rat.sub Rat.inv Rat.ofScientific

namespace MonServeur

/-- JavaScript String.prototype.trim, modelled structurally over the
character list: strip leading and trailing whitespace. -/
def jsTrim (s : String) : String :=
  ⟨((s.data.dropWhile Char.isWhitespace).reverse.dropWhile Char.isWhitespace).reverse⟩

/-- JavaScript String.prototype.toUpperCase, modelled structurally over
the character list. -/
def jsToUpper (s : String) : String :=
  ⟨s.data.map Char.toUpper⟩

/-- Strict lexicographic code-point comparison of character sequences,
modelling the comparison PostgreSQL uses for ORDER BY on a text column. -/
def charListLt : List Char → List Char → Bool
  | [], [] => false
  | [], _ :: _ => true
  | _ :: _, [] => false
  | a :: as, b :: bs =>
    if a.toNat < b.toNat then true
    else if b.toNat < a.toNat then false
    else charListLt as bs

/-- Reflexive lexicographic code-point comparison of character
sequences. -/
def charListLe : List Char → List Char → Bool
  | [], _ => true
  | _ :: _, [] => false
  | a :: as, b :: bs =>
    if a.toNat < b.toNat then true
    else if b.toNat < a.toNat then false
    else charListLe as bs

/-- Strict string comparison for SQL ordering. -/
def strLt (a b : String) : Bool := charListLt a.data b.data

/-- Reflexive string comparison for SQL ordering. -/
def strLe (a b : String) : Bool := charListLe a.data b.data

theorem charListLe_total : ∀ as bs : List Char,
    charListLe as bs = true ∨ charListLe bs as = true
  | [], _ => Or.inl rfl
  | _ :: _, [] => Or.inr rfl
  | a :: as, b :: bs => by
    rcases Nat.lt_trichotomy a.toNat b.toNat with h | h | h
    · exact Or.inl (by simp only [charListLe]; rw [if_pos h])
    · rcases charListLe_total as bs with ih | ih
      · refine Or.inl ?_
        simp only [charListLe]
        rw [if_neg (by omega), if_neg (by omega)]
        exact ih
      · refine Or.inr ?_
        simp only [charListLe]
        rw [if_neg (by omega), if_neg (by omega)]
        exact ih
    · exact Or.inr (by simp only [charListLe]; rw [if_pos h])

theorem charListLe_trans : ∀ as bs cs : List Char,
    charListLe as bs = true → charListLe bs cs = true → charListLe as cs = true
  | [], _, _ => fun _ _ => rfl
  | _ :: _, [], _ => fun h1 _ => absurd h1 (by simp [charListLe])
  | _ :: _, _ :: _, [] => fun _ h2 => absurd h2 (by simp [charListLe])
  | a :: as, b :: bs, c :: cs => fun h1 h2 => by
    simp only [charListLe] at h1 h2 ⊢
    rcases Nat.lt_trichotomy b.toNat a.toNat with hba | hba | hba
    · rw [if_neg (Nat.lt_asymm hba), if_pos hba] at h1
      exact absurd h1 Bool.false_ne_true
    · rcases Nat.lt_trichotomy c.toNat b.toNat with hcb | hcb | hcb
      · rw [if_neg (Nat.lt_asymm hcb), if_pos hcb] at h2
        exact absurd h2 Bool.false_ne_true
      · rw [if_neg (by omega), if_neg (by omega)] at h1
        rw [if_neg (by omega), if_neg (by omega)] at h2
        rw [if_neg (by omega), if_neg (by omega)]
        exact charListLe_trans as bs cs h1 h2
      · rw [if_pos (by omega)]
    · rcases Nat.lt_trichotomy c.toNat b.toNat with hcb | hcb | hcb
      · rw [if_neg (Nat.lt_asymm hcb), if_pos hcb] at h2
        exact absurd h2 Bool.false_ne_true
      · rw [if_pos (by omega)]
      · rw [if_pos (by omega)]

/-- A row of the etudiants table (src/index.js lines 33-43): id SERIAL,
nom and prenom NOT NULL, classe and date_naissance nullable, matricule
UNIQUE NOT NULL, date_inscription defaulted to the creation time. -/
structure Etudiant where
  id : Nat
  nom : String
  prenom : String
  classe : Option String
  dateNaissance : Option String
  matricule : String
  dateInscription : Nat
deriving DecidableEq, Repr

/-- A row of the notes table (src/index.js lines 47-56): id SERIAL,
etudiant_id INTEGER NOT NULL REFERENCES etudiants(id) ON DELETE CASCADE,
matiere NOT NULL, note DECIMAL(5,2), coefficient INTEGER, date_ajout
defaulted to the creation time. -/
structure Note where
  id : Nat
  etudiantId : Nat
  matiere : String
  note : ℚ
  coefficient : ℤ
  dateAjout : Nat
deriving DecidableEq, Repr

/-- The whole mutable state of the service: the two tables, the next value
of each SERIAL sequence and a logical clock for CURRENT_TIMESTAMP. -/
structure DB where
  etudiants : List Etudiant
  notes : List Note
  nextEtudiantId : Nat
  nextNoteId : Nat
  clock : Nat
deriving DecidableEq, Repr

/-- The state right after initDatabase dropped and recreated both tables. -/
def emptyDB : DB := ⟨[], [], 1, 1, 0⟩

/-- JavaScript falsiness of an optional string body field, as tested by
the handlers with the bang operator: an absent field (undefined) and the
empty string are falsy; every other string is truthy. -/
def falsyStr : Option String → Bool
  | none => true
  | some s => s = ""

/-- JavaScript falsiness of an optional numeric body field: an absent
field (undefined) and the number 0 are falsy. -/
def falsyNum : Option ℚ → Bool
  | none => true
  | some q => q = 0

/-- A path parameter :id as the handlers see it.  Express hands the
handler a string; the guard is isNaN(id).  numeric q stands for any
parameter string whose JavaScript Number value is the finite number q
(isNaN false, e.g. "7", "0", "-5", "1.5"); nonNumeric stands for any
parameter string whose Number value is NaN (isNaN true, e.g. "abc").
The bang-id clause of the guard can never fire because an Express route
parameter is a nonempty string. -/
inductive IdParam where
  | numeric (q : ℚ)
  | nonNumeric
deriving DecidableEq, Repr

/-- The SQL lookup SELECT ... FROM etudiants WHERE id = dollar-1, the
parameter having been cast by PostgreSQL to an integer i. -/
def findEtudiant (db : DB) (i : ℤ) : Option Etudiant :=
  db.etudiants.find? (fun e => (e.id : ℤ) = i)

-- ==================== POST /api/etudiants ====================

/-- The request body of POST /api/etudiants; a none field is a key absent
from the JSON body. -/
structure EtuInput where
  nom : Option String
  prenom : Option String
  classe : Option String
  dateNaissance : Option String
  matricule : Option String
deriving DecidableEq, Repr

/-- Outcome of POST /api/etudiants (src/index.js lines 83-125):
validationError is the 400 missing-fields response, duplicateKey the 400
response produced when the INSERT fails with the unique-violation code
23505, ok the 200 response carrying the persisted row. -/
inductive EtuCreateResult where
  | validationError
  | duplicateKey
  | ok (e : Etudiant)
deriving DecidableEq, Repr

/-- The or-null defaulting applied to classe and date_naissance
(classe or-else null): an empty string, being falsy, is stored as NULL. -/
def strOrNull : Option String → Option String
  | none => none
  | some s => if s = "" then none else some s

/-- Handler of POST /api/etudiants (src/index.js lines 83-125).  It
rejects when nom, prenom or matricule is falsy; otherwise it inserts the
row with nom and prenom trimmed and matricule trimmed and upper-cased.
The UNIQUE constraint on matricule makes the INSERT fail with code 23505
when another row already holds the same normalized matricule; the handler
maps that failure to duplicateKey.  We model the constraint as the
equivalent membership test against the stored rows.  insertedEtudiant is
the row the INSERT builds and RETURNING * hands back. -/
def insertedEtudiant (db : DB) (inp : EtuInput) : Etudiant :=
  ⟨db.nextEtudiantId, jsTrim (inp.nom.getD ""), jsTrim (inp.prenom.getD ""),
   strOrNull inp.classe, strOrNull inp.dateNaissance,
   jsToUpper (jsTrim (inp.matricule.getD "")), db.clock⟩

def createEtudiant (db : DB) (inp : EtuInput) : EtuCreateResult × DB :=
  if falsyStr inp.nom || falsyStr inp.prenom || falsyStr inp.matricule then
    (.validationError, db)
  else if db.etudiants.any
      (fun e => e.matricule = jsToUpper (jsTrim (inp.matricule.getD ""))) then
    (.duplicateKey, db)
  else
    (.ok (insertedEtudiant db inp),
     { db with
        etudiants := db.etudiants ++ [insertedEtudiant db inp],
        nextEtudiantId := db.nextEtudiantId + 1,
        clock := db.clock + 1 })

-- ==================== GET /api/etudiants ====================

/-- The grade rows of one student: the join condition e.id = n.etudiant_id
restricted to one student, also the WHERE clause of the per-student note
queries. -/
def notesOf (db : DB) (eid : Nat) : List Note :=
  db.notes.filter (fun n => n.etudiantId = eid)

/-- SQL AVG over a list of non-null numeric values: NULL on the empty
list, otherwise the exact rational mean (PostgreSQL numeric arithmetic is
modelled as exact rational arithmetic). -/
def sqlAvg (l : List ℚ) : Option ℚ :=
  match l with
  | [] => none
  | _ => some (l.sum / l.length)

/-- SQL NULLIF(x, 0) lifted to a possibly-NULL argument. -/
def nullifZero : Option ℚ → Option ℚ
  | none => none
  | some q => if q = 0 then none else some q

/-- PostgreSQL ROUND(x, 2): round half away from zero to two decimal
places. -/
def sqlRound2 (q : ℚ) : ℚ :=
  if 0 ≤ q then (⌊q * 100 + 1 / 2⌋ : ℚ) / 100
  else -((⌊-q * 100 + 1 / 2⌋ : ℚ) / 100)

/-- The moyenne column of GET /api/etudiants (src/index.js line 140):
ROUND(AVG(n.note * n.coefficient) / NULLIF(AVG(n.coefficient), 0), 2)
over the student's grade rows; with a LEFT JOIN and no grade rows both
AVGs are NULL, so the whole expression is NULL. -/
def moyenne (l : List Note) : Option ℚ :=
  match sqlAvg (l.map fun n => n.note * (n.coefficient : ℚ)),
        nullifZero (sqlAvg (l.map fun n => (n.coefficient : ℚ))) with
  | some a, some b => some (sqlRound2 (a / b))
  | _, _ => none

/-- Modelled from the spec: the weighted mean of section 4.2 of the spec,
sum(value times weight) / sum(weight) across the student's grades rounded
to 2 decimal places, and null when the student has zero grades.  Written
from the spec's words, to be compared with moyenne, which is written from
the SQL of the code. -/
def specAverage (l : List Note) : Option ℚ :=
  match l with
  | [] => none
  | _ =>
    some (sqlRound2
      ((l.map fun n => n.note * (n.coefficient : ℚ)).sum /
       (l.map fun n => (n.coefficient : ℚ)).sum))

/-- The ORDER BY e.nom ASC, e.prenom ASC ordering of GET /api/etudiants. -/
def etuOrder (a b : Etudiant) : Prop :=
  strLt a.nom b.nom = true ∨ (a.nom = b.nom ∧ strLe a.prenom b.prenom = true)

instance : DecidableRel etuOrder := fun a b => by
  unfold etuOrder; infer_instance

/-- One row of the GET /api/etudiants response: the student columns plus
nombre_notes (COUNT over the joined grade rows) and moyenne. -/
structure StudentRow where
  etudiant : Etudiant
  nombreNotes : Nat
  moyenne : Option ℚ
deriving DecidableEq, Repr

/-- Handler of GET /api/etudiants (src/index.js lines 128-156): every
student, grouped with the COUNT and the ROUND-AVG aggregate of its grade
rows, ordered by nom then prenom. -/
def listAll (db : DB) : List StudentRow :=
  (List.insertionSort etuOrder db.etudiants).map fun e =>
    ⟨e, (notesOf db e.id).length, moyenne (notesOf db e.id)⟩

-- ==================== GET /api/etudiants/:id and export ====================

/-- Reverse-chronological ordering: ORDER BY date_ajout DESC. -/
def noteChronoDesc (a b : Note) : Prop := b.dateAjout ≤ a.dateAjout

/-- Alphabetical-by-subject ordering: ORDER BY matiere ASC. -/
def noteAlpha (a b : Note) : Prop := strLe a.matiere b.matiere = true

instance : DecidableRel noteChronoDesc := fun a b => by
  unfold noteChronoDesc; infer_instance

instance : DecidableRel noteAlpha := fun a b => by
  unfold noteAlpha; infer_instance

instance : IsTotal Note noteChronoDesc :=
  ⟨fun a b => le_total b.dateAjout a.dateAjout⟩

instance : IsTrans Note noteChronoDesc :=
  ⟨fun _ _ _ h1 h2 => le_trans h2 h1⟩

instance : IsTotal Note noteAlpha :=
  ⟨fun a b => charListLe_total a.matiere.data b.matiere.data⟩

instance : IsTrans Note noteAlpha :=
  ⟨fun _ _ _ h1 h2 => charListLe_trans _ _ _ h1 h2⟩

/-- Outcome of the two single-student read endpoints: invalidId is the
400 ID-invalide response, storeFailure the 500 response produced when
PostgreSQL rejects the cast of a non-integer parameter to INTEGER,
notFound the 404 response, ok the 200 response with the student row and
its grade rows in the endpoint's order. -/
inductive GetResult where
  | invalidId
  | storeFailure
  | notFound
  | ok (e : Etudiant) (notes : List Note)
deriving DecidableEq, Repr

/-- Handler of GET /api/etudiants/:id (src/index.js lines 159-201): the
isNaN guard, then the student lookup, then the student's grade rows
ORDER BY date_ajout DESC. -/
def getById (db : DB) (id : IdParam) : GetResult :=
  match id with
  | .nonNumeric => .invalidId
  | .numeric q =>
    if q.den ≠ 1 then .storeFailure
    else
      match findEtudiant db q.num with
      | none => .notFound
      | some e => .ok e (List.insertionSort noteChronoDesc (notesOf db e.id))

/-- Handler of GET /api/export/etudiant/:id (src/index.js lines 364-404):
identical to getById except that the grade rows come back
ORDER BY matiere ASC. -/
def exportEtudiant (db : DB) (id : IdParam) : GetResult :=
  match id with
  | .nonNumeric => .invalidId
  | .numeric q =>
    if q.den ≠ 1 then .storeFailure
    else
      match findEtudiant db q.num with
      | none => .notFound
      | some e => .ok e (List.insertionSort noteAlpha (notesOf db e.id))

-- ==================== DELETE handlers ====================

/-- Outcome of the two DELETE endpoints. -/
inductive DelResult where
  | invalidId
  | storeFailure
  | notFound
  | ok
deriving DecidableEq, Repr

/-- Handler of DELETE /api/etudiants/:id (src/index.js lines 204-236):
the isNaN guard, then DELETE FROM etudiants WHERE id = dollar-1
RETURNING *; when a row is deleted, the ON DELETE CASCADE of
notes.etudiant_id also removes every grade row referencing it; when no
row matches, the handler answers 404 and the state is unchanged. -/
def deleteEtudiant (db : DB) (id : IdParam) : DelResult × DB :=
  match id with
  | .nonNumeric => (.invalidId, db)
  | .numeric q =>
    if q.den ≠ 1 then (.storeFailure, db)
    else if db.etudiants.any (fun e => (e.id : ℤ) = q.num) then
      (.ok,
       { db with
          etudiants := db.etudiants.filter (fun e => ¬((e.id : ℤ) = q.num)),
          notes := db.notes.filter (fun n => ¬((n.etudiantId : ℤ) = q.num)) })
    else (.notFound, db)

/-- Handler of DELETE /api/notes/:id (src/index.js lines 327-359). -/
def deleteNote (db : DB) (id : IdParam) : DelResult × DB :=
  match id with
  | .nonNumeric => (.invalidId, db)
  | .numeric q =>
    if q.den ≠ 1 then (.storeFailure, db)
    else if db.notes.any (fun n => (n.id : ℤ) = q.num) then
      (.ok, { db with notes := db.notes.filter (fun n => ¬((n.id : ℤ) = q.num)) })
    else (.notFound, db)

-- ==================== POST /api/notes ====================

/-- The request body of POST /api/notes.  etudiant_id, note and
coefficient are numeric JSON values (none = key absent), matiere a
string. -/
structure NoteInput where
  etudiantId : Option ℚ
  matiere : Option String
  note : Option ℚ
  coefficient : Option ℚ
deriving DecidableEq, Repr

/-- Outcome of POST /api/notes (src/index.js lines 241-298).
missingFields, noteRange and coefRange are the three field-specific 400
responses (the spec's ValidationError); notFound the 404 etudiant-non-
trouve response; storeFailure the 500 response on a PostgreSQL error;
ok the 200 response with the inserted row. -/
inductive NoteCreateResult where
  | missingFields
  | noteRange
  | coefRange
  | notFound
  | storeFailure
  | ok (n : Note)
deriving DecidableEq, Repr

/-- The resolution const coef = coefficient or-else 1: a falsy
coefficient (absent, or the number 0) resolves to 1, any other value to
itself. -/
def resolvedCoef (inp : NoteInput) : ℚ :=
  if falsyNum inp.coefficient then 1 else inp.coefficient.getD 1

/-- Handler of POST /api/notes (src/index.js lines 241-298).  Presence:
etudiant_id and matiere are tested by falsiness, note by strict
comparison with undefined.  Range: note below 0 or above 20 and resolved
coefficient below 1 or above 10 each draw a 400.  Then the separate
existence read on etudiants decides 404, and only then does the INSERT
run, with matiere trimmed, parseFloat(note) the number itself and
parseInt(coef) the floor of the (positive, already range-checked)
resolved coefficient.  insertedNote is the row the INSERT builds and
RETURNING * hands back. -/
def insertedNote (db : DB) (inp : NoteInput) (e : Etudiant) : Note :=
  ⟨db.nextNoteId, e.id, jsTrim (inp.matiere.getD ""), inp.note.getD 0,
   ⌊resolvedCoef inp⌋, db.clock⟩

def createNote (db : DB) (inp : NoteInput) : NoteCreateResult × DB :=
  if falsyNum inp.etudiantId || falsyStr inp.matiere || inp.note.isNone then
    (.missingFields, db)
  else if inp.note.getD 0 < 0 || 20 < inp.note.getD 0 then
    (.noteRange, db)
  else if resolvedCoef inp < 1 || 10 < resolvedCoef inp then
    (.coefRange, db)
  else if (inp.etudiantId.getD 0).den ≠ 1 then
    (.storeFailure, db)
  else
    match findEtudiant db (inp.etudiantId.getD 0).num with
    | none => (.notFound, db)
    | some e =>
      (.ok (insertedNote db inp e),
       { db with
          notes := db.notes ++ [insertedNote db inp e],
          nextNoteId := db.nextNoteId + 1,
          clock := db.clock + 1 })

-- ==================== GET /api/notes ====================

/-- One row of GET /api/notes: the grade columns joined with the owning
student's columns. -/
structure JoinedNote where
  note : Note
  etudiant : Etudiant
deriving DecidableEq, Repr

/-- Handler of GET /api/notes (src/index.js lines 301-324): the INNER
JOIN of notes with etudiants on etudiant_id, ORDER BY date_ajout DESC;
a grade row with no matching student row simply does not appear. -/
def listNotes (db : DB) : List JoinedNote :=
  (List.insertionSort noteChronoDesc db.notes).filterMap fun n =>
    (db.etudiants.find? (fun e => e.id = n.etudiantId)).map (fun e => ⟨n, e⟩)

-- ==================== startup ====================

/-- The observable events of the module top level of src/index.js, in
Node.js run-to-completion order. -/
inductive StartupEvent where
  | initStart
  | routesRegistered
  | listenStart
  | initDone
  | initFailed
  | processExit
deriving DecidableEq, Repr

/-- The startup event order of src/index.js (lines 75-78 and 449-452).
The top level calls initDatabase() without awaiting it: the async call
runs to its first await and suspends, so the rest of the module —
registering every route and calling app.listen — completes before the
init promise can settle.  Only afterwards does the promise resolve
(initDone) or reject, the catch handler then calling process.exit(1).
The parameter says whether initialization succeeds. -/
def startupTrace (initSucceeds : Bool) : List StartupEvent :=
  [.initStart, .routesRegistered, .listenStart] ++
    (if initSucceeds then [.initDone] else [.initFailed, .processExit])

/-- No grade row references a missing student: the foreign-key invariant
of the notes table. -/
def noOrphans (db : DB) : Prop :=
  ∀ n ∈ db.notes, ∃ e ∈ db.etudiants, e.id = n.etudiantId

instance (db : DB) : Decidable (noOrphans db) := by
  unfold noOrphans; infer_instance




-- ==================== concrete states shared by the witnesses ====================

/-- A sample student row. -/
def etuDupont : Etudiant := ⟨1, "DUPONT", "Jean", none, none, "M1", 0⟩

/-- A state holding one student and no grades. -/
def dbOne : DB := ⟨[etuDupont], [], 2, 1, 1⟩

/-- A state holding one student and the two grades of the spec's worked
example: (value 10, weight 1) and (value 16, weight 3). -/
def dbC1 : DB :=
  ⟨[etuDupont], [⟨1, 1, "Algebre", 10, 1, 1⟩, ⟨2, 1, "Physique", 16, 3, 2⟩], 2, 3, 3⟩

/-- The single GET /api/etudiants row of dbC1. -/
def rowC1 : StudentRow := ⟨etuDupont, 2, some (29 / 2)⟩

/-- A state with one student (id 1) owning one grade, plus the grade of
nobody else. -/
def dbC2 : DB := ⟨[etuDupont], [⟨1, 1, "Algebre", 15, 2, 1⟩], 2, 2, 2⟩

/-- The request body of the concrete successful insert used by the C7
witness. -/
def inpC7 : EtuInput := ⟨some " Marie ", some "Curie", some "L3", none, some " mc01 "⟩

/-- The row that insert persists. -/
def etuC7 : Etudiant := ⟨1, "Marie", "Curie", some "L3", none, "MC01", 0⟩

/-- The state after that insert. -/
def dbC7 : DB := (createEtudiant emptyDB inpC7).2

/-- Two grades of student 1 whose alphabetical-by-subject order is the
reverse of their newest-first order. -/
def nAlg : Note := ⟨1, 1, "Algebre", 15, 1, 10⟩

/-- See nAlg. -/
def nPhy : Note := ⟨2, 1, "Physique", 12, 1, 20⟩

/-- One student with the two grades nAlg and nPhy. -/
def dbC8 : DB := ⟨[etuDupont], [nAlg, nPhy], 2, 3, 30⟩


-- ==================== claims ====================

-- ==================== C1 ====================

theorem length_cast_le_sum (l : List ℚ) (h : ∀ x ∈ l, 1 ≤ x) :
    (l.length : ℚ) ≤ l.sum := by
  induction l with
  | nil => simp
  | cons x xs ih =>
    simp only [List.length_cons, List.sum_cons]
    push_cast
    have hx : 1 ≤ x := h x (List.mem_cons_self x xs)
    have hxs := ih (fun y hy => h y (List.mem_cons_of_mem x hy))
    linarith

/-- The aggregate of the code, ROUND(AVG(v*w) / NULLIF(AVG(w), 0), 2),
agrees with the spec's ROUND(SUM(v*w) / SUM(w), 2) whenever every weight
is at least 1, which the check constraint on coefficient guarantees. -/
theorem moyenne_eq_specAverage (l : List Note)
    (h : ∀ n ∈ l, 1 ≤ n.coefficient) : moyenne l = specAverage l := by
  match l with
  | [] => rfl
  | n :: ns =>
    set L := n :: ns with hL
    have hk : (0:ℚ) < (L.length : ℚ) := by
      rw [hL]
      exact_mod_cast Nat.succ_pos ns.length
    have hc1 : ∀ x ∈ L.map (fun m => (m.coefficient : ℚ)), (1:ℚ) ≤ x := by
      intro x hx
      rcases List.mem_map.mp hx with ⟨m, hm, rfl⟩
      exact_mod_cast h m hm
    have hc : (0:ℚ) < (L.map fun m => (m.coefficient : ℚ)).sum := by
      calc (0:ℚ) < ((L.map fun m => (m.coefficient : ℚ)).length : ℚ) := by
            rw [List.length_map]; exact hk
        _ ≤ _ := length_cast_le_sum _ hc1
    have hquot : (L.map fun m => (m.coefficient : ℚ)).sum /
        ((L.map fun m => (m.coefficient : ℚ)).length : ℚ) ≠ 0 := by
      rw [List.length_map]
      positivity
    show moyenne L = specAverage L
    rw [hL]
    show (match sqlAvg ((n :: ns).map fun m => m.note * (m.coefficient : ℚ)),
            nullifZero (sqlAvg ((n :: ns).map fun m => (m.coefficient : ℚ))) with
          | some a, some b => some (sqlRound2 (a / b))
          | _, _ => none) = _
    show (match
            some (((n :: ns).map fun m => m.note * (m.coefficient : ℚ)).sum /
              (((n :: ns).map fun m => m.note * (m.coefficient : ℚ)).length : ℚ)),
            nullifZero (some (((n :: ns).map fun m => (m.coefficient : ℚ)).sum /
              (((n :: ns).map fun m => (m.coefficient : ℚ)).length : ℚ))) with
          | some a, some b => some (sqlRound2 (a / b))
          | _, _ => none) = _
    rw [show nullifZero (some (((n :: ns).map fun m => (m.coefficient : ℚ)).sum /
          (((n :: ns).map fun m => (m.coefficient : ℚ)).length : ℚ)))
        = some (((n :: ns).map fun m => (m.coefficient : ℚ)).sum /
          (((n :: ns).map fun m => (m.coefficient : ℚ)).length : ℚ)) from by
      simp only [nullifZero]
      rw [if_neg (by rw [hL] at hquot; exact hquot)]]
    show some (sqlRound2 _) = specAverage (n :: ns)
    show _ = some (sqlRound2 (((n :: ns).map fun m => m.note * (m.coefficient : ℚ)).sum /
      ((n :: ns).map fun m => (m.coefficient : ℚ)).sum))
    congr 1
    congr 1
    rw [List.length_map, List.length_map]
    rw [div_div_div_comm, div_self (by rw [hL] at hk; exact ne_of_gt hk), div_one]

/-- C1: for every student returned by listAll, the reported average equals
the weighted mean sum(value * weight) / sum(weight) over that student's
grades rounded to 2 decimal places (specAverage, written from the spec),
it is null when the student has zero grades, and the concrete example
[(10,1),(16,3)] yields 14.5 = 29/2; the division is guarded (moyenne is a
total function into Option, never an error). -/
theorem C1_listAll_weighted_average :
    (∀ db : DB, (∀ n ∈ db.notes, 1 ≤ n.coefficient) →
       ∀ row ∈ listAll db,
         row.moyenne = specAverage (notesOf db row.etudiant.id) ∧
         (notesOf db row.etudiant.id = [] → row.moyenne = none)) ∧
    moyenne [⟨1, 1, "Algebre", 10, 1, 1⟩, ⟨2, 1, "Physique", 16, 3, 2⟩] = some (29 / 2) ∧
    moyenne [] = none := by
  refine ⟨?_, by decide, rfl⟩
  intro db h row hrow
  rcases List.mem_map.mp hrow with ⟨e, _, rfl⟩
  have hmem : ∀ n ∈ notesOf db e.id, 1 ≤ n.coefficient := fun n hn =>
    h n (List.mem_filter.mp hn).1
  refine ⟨moyenne_eq_specAverage _ hmem, ?_⟩
  intro hnil
  show moyenne (notesOf db e.id) = none
  rw [hnil]
  rfl

/-- Witness for C1 at the concrete state dbC1. -/
theorem C1_listAll_weighted_average_witness :
    rowC1.moyenne = specAverage (notesOf dbC1 rowC1.etudiant.id) ∧
    (notesOf dbC1 rowC1.etudiant.id = [] → rowC1.moyenne = none) :=
  C1_listAll_weighted_average.1 dbC1 (by decide) rowC1 (by decide)




/-- C2: deleting a student cascades: after a successful
DELETE /api/etudiants/:id no stored grade row and no row of the grade
listing references the deleted id; and every operation preserves the
no-orphan-grades invariant. -/
theorem C2_cascade_delete_no_orphans :
    (∀ (db : DB) (q : ℚ), (deleteEtudiant db (.numeric q)).1 = .ok →
       (∀ n ∈ (deleteEtudiant db (.numeric q)).2.notes, (n.etudiantId : ℤ) ≠ q.num) ∧
       (∀ j ∈ listNotes (deleteEtudiant db (.numeric q)).2,
          (j.note.etudiantId : ℤ) ≠ q.num)) ∧
    (∀ db inp, noOrphans db → noOrphans (createEtudiant db inp).2) ∧
    (∀ db inp, noOrphans db → noOrphans (createNote db inp).2) ∧
    (∀ db p, noOrphans db → noOrphans (deleteEtudiant db p).2) ∧
    (∀ db p, noOrphans db → noOrphans (deleteNote db p).2) := by
  refine ⟨?_, ?_, ?_, ?_, ?_⟩
  · intro db q hok
    simp only [deleteEtudiant] at hok ⊢
    by_cases hden : q.den ≠ 1
    · rw [if_pos hden] at hok
      exact DelResult.noConfusion hok
    · rw [if_neg hden] at hok ⊢
      by_cases hany : (db.etudiants.any fun e => decide ((e.id : ℤ) = q.num)) = true
      · rw [if_pos hany] at hok ⊢
        constructor
        · intro n hn
          have := (List.mem_filter.mp hn).2
          simpa using this
        · intro j hj
          rcases List.mem_filterMap.mp hj with ⟨a, ha, hfa⟩
          rw [List.mem_insertionSort] at ha
          have hprop := (List.mem_filter.mp ha).2
          rcases Option.map_eq_some'.mp hfa with ⟨e, _, rfl⟩
          simpa using hprop
      · rw [if_neg hany] at hok
        exact DelResult.noConfusion hok
  · intro db inp h
    simp only [createEtudiant]
    by_cases hval : (falsyStr inp.nom || falsyStr inp.prenom || falsyStr inp.matricule) = true
    · rw [if_pos hval]; exact h
    · rw [if_neg hval]
      by_cases hdup : (db.etudiants.any
          fun e => decide (e.matricule = jsToUpper (jsTrim (inp.matricule.getD "")))) = true
      · rw [if_pos hdup]; exact h
      · rw [if_neg hdup]
        intro n hn
        rcases h n hn with ⟨e, he, hid⟩
        exact ⟨e, List.mem_append_left _ he, hid⟩
  · intro db inp h
    simp only [createNote]
    by_cases h1 : (falsyNum inp.etudiantId || falsyStr inp.matiere || inp.note.isNone) = true
    · rw [if_pos h1]; exact h
    · rw [if_neg h1]
      by_cases h2 : (decide (inp.note.getD 0 < 0) || decide (20 < inp.note.getD 0)) = true
      · rw [if_pos h2]; exact h
      · rw [if_neg h2]
        by_cases h3 : (decide (resolvedCoef inp < 1) || decide (10 < resolvedCoef inp)) = true
        · rw [if_pos h3]; exact h
        · rw [if_neg h3]
          by_cases h4 : (inp.etudiantId.getD 0).den ≠ 1
          · rw [if_pos h4]; exact h
          · rw [if_neg h4]
            rcases hfind : findEtudiant db (inp.etudiantId.getD 0).num with _ | e
            · exact h
            · intro n hn
              rcases List.mem_append.mp hn with hn1 | hn1
              · rcases h n hn1 with ⟨e2, he2, hid⟩
                exact ⟨e2, he2, hid⟩
              · rcases List.mem_singleton.mp hn1 with rfl
                exact ⟨e, List.mem_of_find?_eq_some hfind, rfl⟩
  · intro db p h
    cases p with
    | nonNumeric => exact h
    | numeric q =>
      simp only [deleteEtudiant]
      by_cases hden : q.den ≠ 1
      · rw [if_pos hden]; exact h
      · rw [if_neg hden]
        by_cases hany : (db.etudiants.any fun e => decide ((e.id : ℤ) = q.num)) = true
        · rw [if_pos hany]
          intro n hn
          have hn2 := List.mem_filter.mp hn
          have hne : ¬((n.etudiantId : ℤ) = q.num) := by simpa using hn2.2
          rcases h n hn2.1 with ⟨e, he, hid⟩
          refine ⟨e, List.mem_filter.mpr ⟨he, ?_⟩, hid⟩
          simpa [hid] using hne
        · rw [if_neg hany]; exact h
  · intro db p h
    cases p with
    | nonNumeric => exact h
    | numeric q =>
      simp only [deleteNote]
      by_cases hden : q.den ≠ 1
      · rw [if_pos hden]; exact h
      · rw [if_neg hden]
        by_cases hany : (db.notes.any fun n => decide ((n.id : ℤ) = q.num)) = true
        · rw [if_pos hany]
          intro n hn
          exact h n (List.mem_filter.mp hn).1
        · rw [if_neg hany]; exact h

/-- Witness for C2 at the concrete state dbC2. -/
theorem C2_cascade_delete_witness :
    noOrphans dbC2 ∧ noOrphans (deleteEtudiant dbC2 (.numeric 1)).2 :=
  ⟨by decide, C2_cascade_delete_no_orphans.2.2.2.1 dbC2 (.numeric 1) (by decide)⟩



/-- After the presence guard passes (truthy etudiant_id and matiere, note
present), POST /api/notes reduces to the range checks, the existence read
and the insert. -/
theorem createNote_pass1 (db : DB) (inp : NoteInput) (v : ℚ)
    (h1 : falsyNum inp.etudiantId = false) (h2 : falsyStr inp.matiere = false)
    (h3 : inp.note = some v) :
    createNote db inp =
      if v < 0 || 20 < v then (.noteRange, db)
      else if resolvedCoef inp < 1 || 10 < resolvedCoef inp then (.coefRange, db)
      else if (inp.etudiantId.getD 0).den ≠ 1 then (.storeFailure, db)
      else
        match findEtudiant db (inp.etudiantId.getD 0).num with
        | none => (.notFound, db)
        | some e =>
          (.ok (insertedNote db inp e),
           { db with
              notes := db.notes ++ [insertedNote db inp e],
              nextNoteId := db.nextNoteId + 1,
              clock := db.clock + 1 }) := by
  unfold createNote
  rw [h1, h2, h3]
  simp only [Option.isNone_some, Bool.or_false, Bool.false_or, Option.getD_some,
    Bool.false_eq_true, if_false]

/-- C3 counterexample: with an existing student, subject Maths, value 10
and an explicitly provided weight 0 — provided, not omitted, and outside
[1, 10] — the handler succeeds and stores coefficient 1 instead of
failing with ValidationError: coefficient or-else 1 also replaces a
provided falsy weight such as 0. -/
theorem C3_coef_zero_counterexample :
    (createNote dbOne ⟨some 1, some "Maths", some 10, some 0⟩).1 =
      .ok ⟨1, 1, "Maths", 10, 1, 1⟩ ∧
    ¬((1:ℚ) ≤ 0 ∧ (0:ℚ) ≤ 10) := by
  exact ⟨by decide, by decide⟩

/-- C3 amended: presence of value is decided by undefined-ness (0 is
accepted), presence of studentId and subject by truthiness; after
presence, the 400 range failures are exactly: value outside [0, 20]
(noteRange), else resolved weight outside [1, 10] (coefRange), where the
weight resolves to 1 when the coefficient is omitted OR falsy (e.g. the
provided number 0), and to the provided value otherwise; value -1 and 21
fail, 0 and 20 succeed. -/
theorem C3_grade_create_validation :
    (∀ (db : DB) (inp : NoteInput) (v : ℚ),
       falsyNum inp.etudiantId = false → falsyStr inp.matiere = false →
       inp.note = some v →
       (((createNote db inp).1 = .noteRange) ↔ (v < 0 ∨ 20 < v)) ∧
       (¬(v < 0 ∨ 20 < v) →
         (((createNote db inp).1 = .coefRange) ↔
           (resolvedCoef inp < 1 ∨ 10 < resolvedCoef inp)))) ∧
    (∀ (db : DB) (eid : Option ℚ) (m : Option String) (c : Option ℚ),
       createNote db ⟨eid, m, none, c⟩ = (.missingFields, db)) ∧
    (createNote dbOne ⟨some 1, some "Maths", some (-1), none⟩).1 = .noteRange ∧
    (createNote dbOne ⟨some 1, some "Maths", some 21, none⟩).1 = .noteRange ∧
    (createNote dbOne ⟨some 1, some "Maths", some 0, none⟩).1 =
      .ok ⟨1, 1, "Maths", 0, 1, 1⟩ ∧
    (createNote dbOne ⟨some 1, some "Maths", some 20, none⟩).1 =
      .ok ⟨1, 1, "Maths", 20, 1, 1⟩ := by
  refine ⟨?_, ?_, by decide, by decide, by decide, by decide⟩
  · intro db inp v h1 h2 h3
    rw [createNote_pass1 db inp v h1 h2 h3]
    by_cases hv : v < 0 ∨ 20 < v
    · rw [if_pos (by simpa using hv)]
      constructor
      · simp [hv]
      · intro hv2; exact absurd hv hv2
    · rw [if_neg (by simpa using hv)]
      by_cases hc : resolvedCoef inp < 1 ∨ 10 < resolvedCoef inp
      · rw [if_pos (by simpa using hc)]
        constructor
        · constructor
          · intro habs; exact absurd habs (by simp)
          · intro habs; exact absurd habs hv
        · intro _; simp [hc]
      · rw [if_neg (by simpa using hc)]
        by_cases hden : (inp.etudiantId.getD 0).den ≠ 1
        · rw [if_pos hden]
          constructor
          · constructor
            · intro habs; exact absurd habs (by simp)
            · intro habs; exact absurd habs hv
          · intro _
            constructor
            · intro habs; exact absurd habs (by simp)
            · intro habs; exact absurd habs hc
        · rw [if_neg hden]
          rcases hfind : findEtudiant db (inp.etudiantId.getD 0).num with _ | e
          · constructor
            · constructor
              · intro habs; exact absurd habs (by simp)
              · intro habs; exact absurd habs hv
            · intro _
              constructor
              · intro habs; exact absurd habs (by simp)
              · intro habs; exact absurd habs hc
          · constructor
            · constructor
              · intro habs; exact absurd habs (by simp)
              · intro habs; exact absurd habs hv
            · intro _
              constructor
              · intro habs; exact absurd habs (by simp)
              · intro habs; exact absurd habs hc
  · intro db eid m c
    unfold createNote
    rw [show (falsyNum eid || falsyStr m || (none : Option ℚ).isNone) = true by
      simp [Option.isNone_none]]
    simp

/-- Witness for C3 at a concrete passing input. -/
theorem C3_grade_create_validation_witness :
    ((createNote dbOne ⟨some 1, some "Maths", some 25, some 2⟩).1 =
        NoteCreateResult.noteRange ↔ ((25:ℚ) < 0 ∨ 20 < (25:ℚ))) :=
  (C3_grade_create_validation.1 dbOne ⟨some 1, some "Maths", some 25, some 2⟩ 25
    (by decide) (by decide) rfl).1



/-- C4: grade create whose studentId matches no student row fails with
NotFound and returns the state unchanged — no grade row is inserted.  The
existence check is the separate read findEtudiant (SELECT id FROM
etudiants WHERE id = dollar-1), performed before the INSERT is ever
attempted. -/
theorem C4_note_student_not_found (db : DB) (inp : NoteInput) (v : ℚ)
    (h1 : falsyNum inp.etudiantId = false) (h2 : falsyStr inp.matiere = false)
    (h3 : inp.note = some v) (h4 : ¬(v < 0 ∨ 20 < v))
    (h5 : ¬(resolvedCoef inp < 1 ∨ 10 < resolvedCoef inp))
    (h6 : (inp.etudiantId.getD 0).den = 1)
    (h7 : ∀ e ∈ db.etudiants, (e.id : ℤ) ≠ (inp.etudiantId.getD 0).num) :
    createNote db inp = (.notFound, db) := by
  rw [createNote_pass1 db inp v h1 h2 h3]
  rw [if_neg (by simpa using h4), if_neg (by simpa using h5), if_neg (by simp [h6])]
  have hfind : findEtudiant db (inp.etudiantId.getD 0).num = none :=
    List.find?_eq_none.mpr (by intro e he; simpa using h7 e he)
  rw [hfind]

/-- Witness for C4: student id 2 does not exist in dbOne. -/
theorem C4_note_student_not_found_witness :
    createNote dbOne ⟨some 2, some "Maths", some 10, none⟩ = (.notFound, dbOne) :=
  C4_note_student_not_found dbOne ⟨some 2, some "Maths", some 10, none⟩ 10
    rfl rfl rfl (by decide) (by decide) (by decide) (by decide)

/-- C5: inserting a student whose matricule, after the trim-and-uppercase
normalization every insert applies, equals an existing row's stored
matricule fails with duplicateKey (the 400 duplicate response mapped from
the unique-constraint violation 23505) and leaves the state unchanged:
the existing row is never overwritten. -/
theorem C5_duplicate_matricule (db : DB) (inp : EtuInput)
    (h1 : falsyStr inp.nom = false) (h2 : falsyStr inp.prenom = false)
    (h3 : falsyStr inp.matricule = false)
    (hdup : ∃ e ∈ db.etudiants,
      e.matricule = jsToUpper (jsTrim (inp.matricule.getD ""))) :
    createEtudiant db inp = (.duplicateKey, db) := by
  unfold createEtudiant
  rw [h1, h2, h3]
  simp only [Bool.or_false, Bool.false_or, Bool.false_eq_true, if_false]
  rw [if_pos (by simpa using hdup)]

/-- Witness for C5: matricule " m1 " normalizes to M1, the stored code of
etuDupont. -/
theorem C5_duplicate_matricule_witness :
    createEtudiant dbOne ⟨some "Martin", some "Paul", none, none, some " m1 "⟩ =
      (.duplicateKey, dbOne) :=
  C5_duplicate_matricule dbOne ⟨some "Martin", some "Paul", none, none, some " m1 "⟩
    rfl rfl rfl (by decide)

/-- C6 counterexample: the id string "0" passes the isNaN guard (it is
numeric), and 0 is not a positive integer; the claim requires InvalidId,
but getById reaches the store and answers NotFound. -/
theorem C6_id_zero_counterexample :
    getById emptyDB (.numeric 0) = .notFound ∧
    getById emptyDB (.numeric 0) ≠ .invalidId := ⟨by decide, by decide⟩

/-- C6 amended: only ids failing isNaN (nonNumeric, such as "abc") are
rejected with InvalidId, before any store access (uniformly in the
state); numeric ids — including 0 and negatives — reach the store, where
an integer id matching no row yields NotFound and a non-integer numeric
id a store error; NotFound is thus not reserved to well-formed positive
ids. -/
theorem C6_invalid_id_guard :
    (∀ db, getById db .nonNumeric = .invalidId) ∧
    (∀ db, exportEtudiant db .nonNumeric = .invalidId) ∧
    (∀ db, deleteEtudiant db .nonNumeric = (.invalidId, db)) ∧
    (∀ db, deleteNote db .nonNumeric = (.invalidId, db)) ∧
    (∀ (db : DB) (q : ℚ), q.den = 1 →
       (∀ e ∈ db.etudiants, (e.id : ℤ) ≠ q.num) →
       getById db (.numeric q) = .notFound ∧
       deleteEtudiant db (.numeric q) = (.notFound, db)) ∧
    (∀ (db : DB) (q : ℚ), q.den ≠ 1 →
       getById db (.numeric q) = .storeFailure) := by
  refine ⟨fun db => rfl, fun db => rfl, fun db => rfl, fun db => rfl, ?_, ?_⟩
  · intro db q hden hno
    have hfind : findEtudiant db q.num = none :=
      List.find?_eq_none.mpr (by intro e he; simpa using hno e he)
    constructor
    · simp only [getById]
      rw [if_neg (by simp [hden]), hfind]
    · simp only [deleteEtudiant]
      rw [if_neg (by simp [hden])]
      rw [if_neg (by simpa using fun e he => hno e he)]
  · intro db q hden
    simp only [getById]
    rw [if_pos hden]

/-- Witness for C6: the well-formed id 7 matches no row of dbOne. -/
theorem C6_invalid_id_witness :
    getById dbOne (.numeric 7) = .notFound ∧
    deleteEtudiant dbOne (.numeric 7) = (.notFound, dbOne) :=
  C6_invalid_id_guard.2.2.2.2.1 dbOne 7 (by decide) (by decide)

/-- C7 counterexample: nom " " is whitespace-only — blank after trimming
— yet truthy, so validation passes and the insert succeeds, storing the
empty string as nom, where the claim requires a ValidationError. -/
theorem C7_blank_nom_counterexample :
    (createEtudiant emptyDB ⟨some " ", some "Jean", none, none, some "m1"⟩).1 =
      .ok ⟨1, "", "Jean", none, none, "M1", 0⟩ ∧
    (createEtudiant emptyDB ⟨some " ", some "Jean", none, none, some "m1"⟩).1 ≠
      .validationError := ⟨by decide, by decide⟩

/-- C7 amended: validation tests presence and non-emptiness (falsiness),
not blankness after trimming: the 400 missing-fields response comes
exactly when nom, prenom or matricule is absent or the empty string; on
success the persisted record carries nom and prenom trimmed, the
matricule trimmed and upper-cased, the generated id and the creation
timestamp, and sits in the stored table. -/
theorem C7_student_create_validation :
    (∀ (db : DB) (inp : EtuInput),
       ((createEtudiant db inp).1 = .validationError ↔
         (falsyStr inp.nom || falsyStr inp.prenom || falsyStr inp.matricule) = true)) ∧
    (∀ (db : DB) (inp : EtuInput) (e : Etudiant) (db2 : DB),
       createEtudiant db inp = (.ok e, db2) →
       e.nom = jsTrim (inp.nom.getD "") ∧
       e.prenom = jsTrim (inp.prenom.getD "") ∧
       e.matricule = jsToUpper (jsTrim (inp.matricule.getD "")) ∧
       e.id = db.nextEtudiantId ∧
       e.dateInscription = db.clock ∧
       e ∈ db2.etudiants) := by
  constructor
  · intro db inp
    unfold createEtudiant
    by_cases hval :
        (falsyStr inp.nom || falsyStr inp.prenom || falsyStr inp.matricule) = true
    · rw [if_pos hval]; simp [hval]
    · rw [if_neg hval]
      by_cases hdup : (db.etudiants.any
          fun e => decide (e.matricule = jsToUpper (jsTrim (inp.matricule.getD "")))) = true
      · rw [if_pos hdup]; simp [hval]
      · rw [if_neg hdup]; simp [hval]
  · intro db inp e db2 heq
    unfold createEtudiant at heq
    by_cases hval :
        (falsyStr inp.nom || falsyStr inp.prenom || falsyStr inp.matricule) = true
    · rw [if_pos hval] at heq
      exact absurd heq (by simp)
    · rw [if_neg hval] at heq
      by_cases hdup : (db.etudiants.any
          fun e => decide (e.matricule = jsToUpper (jsTrim (inp.matricule.getD "")))) = true
      · rw [if_pos hdup] at heq
        exact absurd heq (by simp)
      · rw [if_neg hdup] at heq
        simp only [Prod.mk.injEq, EtuCreateResult.ok.injEq] at heq
        rcases heq with ⟨rfl, rfl⟩
        refine ⟨rfl, rfl, rfl, rfl, rfl, ?_⟩
        exact List.mem_append_right _ (List.mem_singleton.mpr rfl)

/-- Witness for C7 at a concrete successful insert. -/
theorem C7_student_create_validation_witness :
    etuC7.nom = jsTrim (inpC7.nom.getD "") ∧
    etuC7.prenom = jsTrim (inpC7.prenom.getD "") ∧
    etuC7.matricule = jsToUpper (jsTrim (inpC7.matricule.getD "")) ∧
    etuC7.id = emptyDB.nextEtudiantId ∧
    etuC7.dateInscription = emptyDB.clock ∧
    etuC7 ∈ dbC7.etudiants :=
  C7_student_create_validation.2 emptyDB inpC7 etuC7 dbC7 (by decide)

/-- C8: the export endpoint returns the student's grades sorted
alphabetically by subject, getById returns them sorted newest-first; both
lists are permutations of the same stored rows; whenever the two sorted
arrangements of those rows differ, the two endpoints' outputs differ —
and they do differ on the concrete two-row state dbC8. -/
theorem C8_export_vs_getById_ordering :
    (∀ (db : DB) (p : IdParam) (e : Etudiant) (l : List Note),
       exportEtudiant db p = .ok e l →
       List.Sorted noteAlpha l ∧ List.Perm l (notesOf db e.id)) ∧
    (∀ (db : DB) (p : IdParam) (e : Etudiant) (l : List Note),
       getById db p = .ok e l →
       List.Sorted noteChronoDesc l ∧ List.Perm l (notesOf db e.id)) ∧
    (∀ (db : DB) (p : IdParam) (e e2 : Etudiant) (la lc : List Note),
       exportEtudiant db p = .ok e la → getById db p = .ok e2 lc →
       e = e2 ∧
       (List.insertionSort noteAlpha (notesOf db e.id) ≠
          List.insertionSort noteChronoDesc (notesOf db e.id) → la ≠ lc)) ∧
    exportEtudiant dbC8 (.numeric 1) = .ok etuDupont [nAlg, nPhy] ∧
    getById dbC8 (.numeric 1) = .ok etuDupont [nPhy, nAlg] ∧
    ([nAlg, nPhy] : List Note) ≠ [nPhy, nAlg] := by
  have hexp : ∀ (db : DB) (p : IdParam) (e : Etudiant) (l : List Note),
      exportEtudiant db p = .ok e l →
      l = List.insertionSort noteAlpha (notesOf db e.id) := by
    intro db p e l heq
    cases p with
    | nonNumeric => exact absurd heq (by simp [exportEtudiant])
    | numeric q =>
      simp only [exportEtudiant] at heq
      by_cases hden : q.den ≠ 1
      · rw [if_pos hden] at heq
        exact absurd heq (by simp)
      · rw [if_neg hden] at heq
        rcases hfind : findEtudiant db q.num with _ | e2
        · rw [hfind] at heq
          exact absurd heq (by simp)
        · rw [hfind] at heq
          simp only [GetResult.ok.injEq] at heq
          rcases heq with ⟨rfl, rfl⟩
          rfl
  have hget : ∀ (db : DB) (p : IdParam) (e : Etudiant) (l : List Note),
      getById db p = .ok e l →
      l = List.insertionSort noteChronoDesc (notesOf db e.id) := by
    intro db p e l heq
    cases p with
    | nonNumeric => exact absurd heq (by simp [getById])
    | numeric q =>
      simp only [getById] at heq
      by_cases hden : q.den ≠ 1
      · rw [if_pos hden] at heq
        exact absurd heq (by simp)
      · rw [if_neg hden] at heq
        rcases hfind : findEtudiant db q.num with _ | e2
        · rw [hfind] at heq
          exact absurd heq (by simp)
        · rw [hfind] at heq
          simp only [GetResult.ok.injEq] at heq
          rcases heq with ⟨rfl, rfl⟩
          rfl
  have hsame : ∀ (db : DB) (p : IdParam) (e e2 : Etudiant) (la lc : List Note),
      exportEtudiant db p = .ok e la → getById db p = .ok e2 lc → e = e2 := by
    intro db p e e2 la lc hx hy
    cases p with
    | nonNumeric => exact absurd hx (by simp [exportEtudiant])
    | numeric q =>
      simp only [exportEtudiant] at hx
      simp only [getById] at hy
      by_cases hden : q.den ≠ 1
      · rw [if_pos hden] at hx
        exact absurd hx (by simp)
      · rw [if_neg hden] at hx hy
        rcases hfind : findEtudiant db q.num with _ | e3
        · rw [hfind] at hx
          exact absurd hx (by simp)
        · rw [hfind] at hx hy
          simp only [GetResult.ok.injEq] at hx hy
          rw [← hx.1, ← hy.1]
  refine ⟨?_, ?_, ?_, by decide, by decide, by decide⟩
  · intro db p e l heq
    rw [hexp db p e l heq]
    exact ⟨List.sorted_insertionSort noteAlpha _,
      List.perm_insertionSort noteAlpha _⟩
  · intro db p e l heq
    rw [hget db p e l heq]
    exact ⟨List.sorted_insertionSort noteChronoDesc _,
      List.perm_insertionSort noteChronoDesc _⟩
  · intro db p e e2 la lc hx hy
    rcases hsame db p e e2 la lc hx hy with rfl
    refine ⟨rfl, ?_⟩
    intro hdiff
    rw [hexp db p e la hx, hget db p e lc hy]
    exact hdiff

/-- Witness for C8 at the concrete state dbC8. -/
theorem C8_export_vs_getById_ordering_witness :
    List.Sorted noteAlpha [nAlg, nPhy] ∧
    List.Perm [nAlg, nPhy] (notesOf dbC8 etuDupont.id) :=
  C8_export_vs_getById_ordering.1 dbC8 (.numeric 1) etuDupont [nAlg, nPhy] (by decide)

/-- C9, evaluated at the failing input (the init promise rejects): the
module top level of src/index.js calls initDatabase without awaiting it
and then calls app.listen, so by run-to-completion the server begins
listening before the init outcome is known, in the success trace and in
the failure trace alike; on failure the process exits only after the
listen.  The claim's required behavior — tables ready before any handler
runs, and never accepting requests when initialization failed — is not
what the code does. -/
theorem C9_startup_listen_before_init :
    startupTrace false =
      [.initStart, .routesRegistered, .listenStart, .initFailed, .processExit] ∧
    StartupEvent.listenStart ∈ startupTrace false ∧
    StartupEvent.listenStart ∈ startupTrace true ∧
    (startupTrace false).takeWhile (fun ev => ev ≠ .processExit) =
      [.initStart, .routesRegistered, .listenStart, .initFailed] :=
  ⟨rfl, by decide, by decide, by decide⟩

/-- C10: a falsy etudiant_id — the number 0 as well as an absent field —
or a falsy matiere (absent or empty) short-circuits POST /api/notes into
the 400 missing-fields response: uniformly in the state, before any store
access, the state comes back unchanged and the result is missingFields,
not the 404 notFound a well-formed unknown student id receives. -/
theorem C10_falsy_etudiant_id :
    (∀ (db : DB) (m : Option String) (v c : Option ℚ),
       createNote db ⟨some 0, m, v, c⟩ = (.missingFields, db)) ∧
    (∀ (db : DB) (inp : NoteInput),
       falsyNum inp.etudiantId = true ∨ falsyStr inp.matiere = true →
       createNote db inp = (.missingFields, db)) ∧
    NoteCreateResult.missingFields ≠ NoteCreateResult.notFound := by
  refine ⟨?_, ?_, by decide⟩
  · intro db m v c
    unfold createNote
    rw [if_pos (by simp [falsyNum])]
  · intro db inp h
    unfold createNote
    rcases h with h | h
    · rw [if_pos (by simp [h])]
    · rw [if_pos (by simp [h])]

/-- Witness for C10: an empty matiere is falsy. -/
theorem C10_falsy_etudiant_id_witness :
    createNote dbOne ⟨some 1, some "", some 10, none⟩ = (.missingFields, dbOne) :=
  C10_falsy_etudiant_id.2.1 dbOne ⟨some 1, some "", some 10, none⟩ (Or.inr rfl)


end MonServeur
